import Mathlib

/-!
# Pechkin: the attachment-dispatch pipeline of `pechkin.go`

A shallow embedding of `src/pechkin.go`.  The embedded part of `main` starts at
line 198, where the configuration has been loaded, overridden by `--mailto`,
validated and the log sink chosen; it runs to the end of `main`.

Everything the program asks of its libraries and of the operating system is a
field of `World`: the regular-expression compiler, the file system, the mail
transport.  `fmt.Sprintf` is modelled for the one call shape the program uses
(a format and a single string operand).

Go strings are byte strings; here they are Lean strings, that is valid UTF-8.
The only byte the code looks for is the ASCII `%`, which never occurs inside a
multi-byte UTF-8 sequence, so scanning characters and scanning bytes agree.
-/

namespace Pechkin

/-! ## Data model -/

/-- The `config` struct (lines 24-45).  `MailServerPort` is a `uint16` and
`MaxFileSize` a `uint32`; they are natural numbers here and are reduced modulo
`2^16` and `2^32` where the code converts them. -/
structure config where
  MailServer : String
  MailServerPort : Nat
  MailServerSSL : Bool
  AuthUser : String
  AuthPass : String
  SkipCertVerify : Bool
  MailFrom : String
  MailFromName : String
  MailTo : String
  MailToName : String
  MailToCC : String
  MailToBCC : String
  MsgSubject : String
  MsgText : String
  LogFile : String
  AttachFile : String
  MaxFileSize : Nat
  CopyToPath : String
  MatchName : String
  SkipName : String
deriving DecidableEq

/-- A header value of a gomail message: `SetAddressHeader` stores an address
with its display name, `SetHeader` stores the given values. -/
inductive HeaderValue where
  | address (address name : String)
  | text (values : List String)
deriving DecidableEq

/-- A gomail message as far as `main` touches it: the header map (an
association list with one binding per field), the body parts and the
attached file names. -/
structure Message where
  header : List (String × HeaderValue)
  parts : List (String × String)
  attachments : List String
deriving DecidableEq

/-- The `tls.Config` fields that `main` sets. -/
structure TLSConfig where
  InsecureSkipVerify : Bool
  ServerName : String
deriving DecidableEq

/-- The `gomail.Dialer` fields that `main` sets. -/
structure Dialer where
  Host : String
  Port : Int
  TLSConfig : TLSConfig
  SSL : Bool
  Username : String
  Password : String
deriving DecidableEq

/-- The jwalterweatherman loggers that `main` writes to. -/
inductive Level where
  | DEBUG
  | INFO
  | WARN
  | FATAL
deriving DecidableEq

/-- An operand of a log call, kept unformatted. -/
inductive LogArg where
  | str (s : String)
  | int (i : Int)
deriving DecidableEq

/-- The externally visible actions of a run, in program order. -/
inductive Event where
  | log (level : Level) (format : String) (args : List LogArg)
  | matchString (pattern s : String)
  | sleep (nanoseconds : Int)
  | copyFile (srcFile dstFilePath : String)
  | dialAndSend (server : Dialer) (msg : Message)
deriving DecidableEq

/-- What a run of `main` leaves behind: its actions and the exit status of the
process (0 when `main` returns or calls `os.Exit(0)`, 1 after `Fatalf`). -/
structure Result where
  trace : List Event
  exitCode : Nat
deriving DecidableEq

/-- The environment of a run.  Errors are their messages; `none` (or
`Except.ok`) is Go's `nil` error.
* `regexpCompile` is `regexp.Compile`: an error, or the matcher of the pattern;
* `fmtDirective` is the output `fmt` produces from a directive outside the
  modelled fragment onwards (see `doPrintf`);
* `osOpen`, `osStat`, `osOpenFile`, `ioCopy` are `os.Open`, `os.Stat` (the
  size of the file), `os.OpenFile` and `io.Copy`;
* `pathJoin` is `path.Join`;
* `dialAndSend` is `gomail.Dialer.DialAndSend`. -/
structure World where
  regexpCompile : String → Except String (String → Bool)
  fmtDirective : List Char → Bool → String → List Char
  osOpen : String → Option String
  osStat : String → Except String Int
  osOpenFile : String → Option String
  ioCopy : String → String → Option String
  pathJoin : String → String → String
  dialAndSend : Dialer → Message → Option String

/-! ## Library functions -/

/-- The tail `fmt` appends when the operand was not consumed by the format. -/
def extraString (a : String) : List Char :=
  "%!(EXTRA string=".data ++ a.data ++ ")".data

/-- The text `fmt` writes for a verb that finds no operand left. -/
def missingArg (verb : Char) : List Char :=
  "%!".data ++ [verb] ++ "(MISSING)".data

/-- The text `fmt` writes for a `%` at the end of the format. -/
def noVerbString : List Char :=
  "%!(NOVERB)".data

/-- The loop of `fmt`'s `doPrintf` for a format and one string operand `a`;
`argUsed` says whether the operand has been consumed (`argNum = 1`).
Modelled: literal text, `%%`, the verbs `%s` and `%v` (the operand verbatim, or
the MISSING text once it is consumed), a `%` ending the format, and the
EXTRA text for an operand left over.  Any other directive (flags, width,
precision, argument index, other verbs) is handed to `World.fmtDirective`
together with the rest of the format. -/
def doPrintf (w : World) (a : String) : List Char → Bool → List Char
  | [], argUsed => if argUsed then [] else extraString a
  | c :: format, argUsed =>
    if c ≠ '%' then c :: doPrintf w a format argUsed
    else
      match format with
      | [] => noVerbString ++ (if argUsed then [] else extraString a)
      | verb :: format =>
        if verb = '%' then '%' :: doPrintf w a format argUsed
        else if verb = 's' ∨ verb = 'v' then
          if argUsed then missingArg verb ++ doPrintf w a format argUsed
          else a.data ++ doPrintf w a format true
        else w.fmtDirective (verb :: format) argUsed a

/-- The call `fmt.Sprintf(format, a)` with a single string operand. -/
def Sprintf (w : World) (format a : String) : String :=
  String.mk (doPrintf w a format.data false)

/-- The call `strings.ContainsAny(s, chars)`. -/
def ContainsAny (s chars : String) : Bool :=
  s.data.any (fun c => chars.data.contains c)

/-- The function `regexp.MatchString`: compile the pattern, and on an error
return `false` with the error. -/
def MatchString (w : World) (pattern s : String) : Bool × Option String :=
  match w.regexpCompile pattern with
  | .error err => (false, some err)
  | .ok re => (re s, none)

/-- The function `path.Split`: the path up to and including its last slash, and
what follows it. -/
def pathSplit (p : String) : String × String :=
  let file := (p.data.reverse.takeWhile (fun c => c != '/')).reverse
  (String.mk (p.data.take (p.data.length - file.length)), String.mk file)

/-- The conversion `int64(x)` of a `uint32` field. -/
def int64OfUint32 (x : Nat) : Int :=
  Int.ofNat (x % 4294967296)

/-- The conversion `int(x)` of a `uint16` field. -/
def intOfUint16 (x : Nat) : Int :=
  Int.ofNat (x % 65536)

/-- A product of `int64` values, wrapped to 64 bits. -/
def wrapInt64 (x : Int) : Int :=
  (x + 9223372036854775808) % 18446744073709551616 - 9223372036854775808

/-- The call `gomail.NewMessage()`. -/
def NewMessage : Message :=
  ⟨[], [], []⟩

/-- Binding a field of the header map, replacing an earlier binding. -/
def Message.setField (m : Message) (field : String) (v : HeaderValue) : Message :=
  { m with header := (m.header.filter (fun p => p.1 != field)) ++ [(field, v)] }

/-- The method `SetAddressHeader`. -/
def Message.SetAddressHeader (m : Message) (field address name : String) : Message :=
  m.setField field (HeaderValue.address address name)

/-- The method `SetHeader` with one value. -/
def Message.SetHeader (m : Message) (field value : String) : Message :=
  m.setField field (HeaderValue.text [value])

/-- The method `SetBody`: the message gets exactly this one part. -/
def Message.SetBody (m : Message) (contentType body : String) : Message :=
  { m with parts := [(contentType, body)] }

/-- The method `Attach`. -/
def Message.Attach (m : Message) (filename : String) : Message :=
  { m with attachments := m.attachments ++ [filename] }

/-- The value bound to a header field, if any. -/
def Message.getHeader (m : Message) (field : String) : Option HeaderValue :=
  (m.header.find? (fun p => p.1 == field)).map (fun p => p.2)

/-! ## The functions of `pechkin.go` -/

/-- The function `fileIsReadable` (lines 89-98), with its log output. -/
def fileIsReadable (w : World) (file : String) : Bool × List Event :=
  match w.osOpen file with
  | some err => (false, [Event.log Level.DEBUG "file error %s" [LogArg.str err]])
  | none => (true, [])

/-- The function `fileIsSmaller` (lines 100-114), with its log output. -/
def fileIsSmaller (w : World) (file : String) (maxSize : Int) : Bool × List Event :=
  match w.osStat file with
  | .error _ => (false, [])
  | .ok fileSize =>
    if fileSize < maxSize ∨ maxSize = 0 then (true, [])
    else (false, [Event.log Level.DEBUG "file size %d > file_max_size %d"
      [LogArg.int fileSize, LogArg.int maxSize]])

/-- The function `copyFile` (lines 116-140): the error it returns. -/
def copyFile (w : World) (srcFile dstFilePath : String) : Option String :=
  match w.osOpen srcFile with
  | some err => some err
  | none =>
    let srcFileName := (pathSplit srcFile).2
    let dstFile := w.pathJoin dstFilePath srcFileName
    match w.osOpenFile dstFile with
    | some err => some err
    | none => w.ioCopy dstFile srcFile

/-! ## `main`, lines 198-306

The blocks of `main` are separate definitions, in program order; `main` chains
them. -/

/-- Lines 198-209, "interpolate vars": the attachment name (the first
positional argument, or the empty string) and the configuration with the
attachment path resolved. -/
def interpolateVars (w : World) (conf : config) (args : List String) :
    String × config × List Event :=
  match args with
  | attachName :: _ =>
    (attachName,
     if conf.AttachFile ≠ "" then
       { conf with AttachFile := Sprintf w conf.AttachFile attachName }
     else conf,
     [Event.log Level.INFO "file %s" [LogArg.str attachName]])
  | [] => ("", conf, [Event.log Level.WARN "Empty argument!" []])

/-- Lines 213-222, the `match_name` check: its actions, and whether it called
`os.Exit(0)`. -/
def processMatchName (w : World) (conf : config) (attachName : String) :
    List Event × Bool :=
  if conf.MatchName ≠ "" then
    let r := MatchString w conf.MatchName attachName
    let t := Event.matchString conf.MatchName attachName ::
      (match r.2 with
       | some err => [Event.log Level.FATAL "error in regexp match_name %s" [LogArg.str err]]
       | none => [])
    if r.1 ≠ true then
      (t ++ [Event.log Level.DEBUG "name %s doesn't match_name %s"
        [LogArg.str attachName, LogArg.str conf.MatchName]], true)
    else (t, false)
  else ([], false)

/-- Lines 223-232, the `skip_name` check: its actions, and whether it called
`os.Exit(0)`. -/
def processSkipName (w : World) (conf : config) (attachName : String) :
    List Event × Bool :=
  if conf.SkipName ≠ "" then
    let r := MatchString w conf.SkipName attachName
    let t := Event.matchString conf.SkipName attachName ::
      (match r.2 with
       | some err => [Event.log Level.FATAL "error in regexp skip_name %s" [LogArg.str err]]
       | none => [])
    if r.1 = true then
      (t ++ [Event.log Level.DEBUG "name %s matches skip_name %s"
        [LogArg.str attachName, LogArg.str conf.SkipName]], true)
    else (t, false)
  else ([], false)

/-- Lines 211-233, "process match_name, skip_name": its actions, and whether
the process exited with status 0. -/
def processNames (w : World) (conf : config) (attachName : String) :
    List Event × Bool :=
  if attachName ≠ "" then
    let m := processMatchName w conf attachName
    if m.2 then m
    else
      let s := processSkipName w conf attachName
      (m.1 ++ s.1, s.2)
  else ([], false)

/-- Lines 235-239, "delay copy & attachment". -/
def delay (flagSleep : Int) : List Event :=
  if flagSleep > 0 then
    [Event.log Level.INFO "sleep for %d seconds" [LogArg.int flagSleep],
     Event.sleep (wrapInt64 (flagSleep * 1000000000))]
  else []

/-- Lines 241-252, "set default message subject": the configuration with the
subject and the text templated. -/
def setDefaultSubject (w : World) (conf : config) (attachName : String) : config :=
  if attachName ≠ "" then
    let conf1 :=
      if conf.MsgSubject = "" then { conf with MsgSubject := "Attachment: %s" } else conf
    let conf2 :=
      if ContainsAny conf1.MsgSubject "%" then
        { conf1 with MsgSubject := Sprintf w conf1.MsgSubject attachName }
      else conf1
    if conf2.MsgText ≠ "" then
      { conf2 with MsgText := Sprintf w conf2.MsgText attachName }
    else conf2
  else conf

/-- Lines 254-263, "copy file to another path". -/
def copyToPath (w : World) (conf : config) : List Event :=
  if conf.CopyToPath ≠ "" ∧ conf.AttachFile ≠ "" then
    Event.copyFile conf.AttachFile conf.CopyToPath ::
      (match copyFile w conf.AttachFile conf.CopyToPath with
       | some err => [Event.log Level.INFO "copy error %s" [LogArg.str err]]
       | none =>
         [Event.log Level.INFO "copy %s to %s"
           [LogArg.str conf.AttachFile, LogArg.str conf.CopyToPath]])
  else []

/-- Lines 265-279: the headers and the body of the message. -/
def buildHeaders (conf : config) : Message :=
  let msg := NewMessage
  let msg := msg.SetAddressHeader "From" conf.MailFrom conf.MailFromName
  let msg := msg.SetAddressHeader "To" conf.MailTo conf.MailToName
  let msg := if conf.MailToCC ≠ "" then msg.SetAddressHeader "Cc" conf.MailToCC "" else msg
  let msg := if conf.MailToBCC ≠ "" then msg.SetAddressHeader "Bcc" conf.MailToBCC "" else msg
  let msg := if conf.MsgSubject ≠ "" then msg.SetHeader "Subject" conf.MsgSubject else msg
  msg.SetBody "text/plain" conf.MsgText

/-- Lines 281-288: the attachment decision, with its log output. -/
def attachFile (w : World) (conf : config) (msg : Message) : Message × List Event :=
  if conf.AttachFile ≠ "" then
    let r := fileIsReadable w conf.AttachFile
    if r.1 then
      let s := fileIsSmaller w conf.AttachFile (int64OfUint32 conf.MaxFileSize)
      if s.1 then
        (msg.Attach conf.AttachFile,
         r.2 ++ s.2 ++ [Event.log Level.INFO "file %s attached" [LogArg.str conf.AttachFile]])
      else (msg, r.2 ++ s.2)
    else (msg, r.2)
  else (msg, [])

/-- Lines 290-300: the dialer. -/
def buildDialer (conf : config) : Dialer :=
  { Host := conf.MailServer
    Port := if intOfUint16 conf.MailServerPort = 0 then 25 else intOfUint16 conf.MailServerPort
    TLSConfig := ⟨conf.SkipCertVerify, conf.MailServer⟩
    SSL := conf.MailServerSSL
    Username := conf.AuthUser
    Password := conf.AuthPass }

/-- Lines 302-305: the transport call; a failure is fatal (exit status 1). -/
def send (w : World) (conf : config) (server : Dialer) (msg : Message) : List Event × Nat :=
  match w.dialAndSend server msg with
  | some err =>
    ([Event.dialAndSend server msg,
      Event.log Level.FATAL "Failed to send message %s" [LogArg.str err]], 1)
  | none =>
    ([Event.dialAndSend server msg,
      Event.log Level.INFO "mail ok %s" [LogArg.str conf.MailTo]], 0)

/-- The function `main` from line 198 on: `conf` is the loaded and validated
configuration, `args` are the positional arguments (`flag.Args()`), `flagSleep`
is the value of `--sleep`. -/
def main (w : World) (conf : config) (args : List String) (flagSleep : Int) : Result :=
  let iv := interpolateVars w conf args
  let attachName := iv.1
  let conf := iv.2.1
  let pn := processNames w conf attachName
  if pn.2 then ⟨iv.2.2 ++ pn.1, 0⟩
  else
    let conf := setDefaultSubject w conf attachName
    let am := attachFile w conf (buildHeaders conf)
    let sd := send w conf (buildDialer conf) am.1
    ⟨iv.2.2 ++ pn.1 ++ delay flagSleep ++ copyToPath w conf ++ am.2 ++ sd.1, sd.2⟩

/-! ## Observations on a run -/

/-- The transport calls of a run: the dialer and the message handed to it. -/
def sendCalls (t : List Event) : List (Dialer × Message) :=
  t.filterMap (fun e => match e with
    | Event.dialAndSend server msg => some (server, msg)
    | _ => none)

/-- Whether an action is a sleep, a side copy or a transport call. -/
def Event.isSleepCopySend : Event → Bool
  | Event.sleep _ => true
  | Event.copyFile _ _ => true
  | Event.dialAndSend _ _ => true
  | _ => false

/-- The regular-expression evaluations of a run, in order: pattern and name. -/
def matchCalls (t : List Event) : List (String × String) :=
  t.filterMap (fun e => match e with
    | Event.matchString pattern s => some (pattern, s)
    | _ => none)

/-- The attachment name `main` works with: `flag.Arg(0)`, empty without a
positional argument. -/
def attachNameOf (args : List String) : String :=
  args.headD ""

/-- The configuration of `main` after line 209 (attachment path resolved). -/
def resolvedConf (w : World) (conf : config) (args : List String) : config :=
  (interpolateVars w conf args).2.1

/-- The configuration of `main` after line 252 (subject and text templated). -/
def templatedConf (w : World) (conf : config) (args : List String) : config :=
  setDefaultSubject w (resolvedConf w conf args) (attachNameOf args)

/-- The message of `main` at line 289, as it is handed to the transport. -/
def assembledMessage (w : World) (conf : config) (args : List String) : Message :=
  (attachFile w (templatedConf w conf args) (buildHeaders (templatedConf w conf args))).1

/-- The subject with the default of line 244 applied. -/
def defaultedSubject (conf : config) : String :=
  if conf.MsgSubject = "" then "Attachment: %s" else conf.MsgSubject

/-! ## Example inputs -/

/-- A world for the examples: the pattern `(` is malformed, the pattern `csv$`
accepts the names ending in `csv`, every other pattern accepts nothing; the
file `/data/report.csv` has 100 bytes and is readable, no other file exists;
creating the copy fails; the transport accepts every message. -/
def exampleWorld : World where
  regexpCompile := fun pattern =>
    if pattern = "(" then Except.error "missing closing )"
    else if pattern = "csv$" then Except.ok (fun s => decide (s.data.reverse.take 3 = ['v', 's', 'c']))
    else Except.ok (fun _ => false)
  fmtDirective := fun _ _ _ => []
  osOpen := fun file => if file = "/data/report.csv" then none else some "no such file"
  osStat := fun file =>
    if file = "/data/report.csv" then Except.ok 100 else Except.error "no such file"
  osOpenFile := fun _ => some "permission denied"
  ioCopy := fun _ _ => none
  pathJoin := fun dir file => dir ++ "/" ++ file
  dialAndSend := fun _ _ => none

/-- The world of the examples with a side copy that succeeds. -/
def exampleWorldCopyOk : World :=
  { exampleWorld with osOpenFile := fun _ => none }

/-- A configuration for the examples. -/
def exampleConf : config where
  MailServer := "mail.example.org"
  MailServerPort := 0
  MailServerSSL := false
  AuthUser := ""
  AuthPass := ""
  SkipCertVerify := false
  MailFrom := "pechkin@example.org"
  MailFromName := "Pechkin"
  MailTo := "fedor@example.org"
  MailToName := "Fedor"
  MailToCC := ""
  MailToBCC := "matroskin@example.org"
  MsgSubject := "New file: %s"
  MsgText := "See %s"
  LogFile := ""
  AttachFile := "/data/%s"
  MaxFileSize := 100
  CopyToPath := "/backup"
  MatchName := ""
  SkipName := ""

/-- The example configuration with the name filter `csv$`. -/
def matchConf : config :=
  { exampleConf with MatchName := "csv$" }

/-- The example configuration with `csv$` as `match_name` and as `skip_name`. -/
def bothConf : config :=
  { exampleConf with MatchName := "csv$", SkipName := "csv$" }

/-- The example configuration with a malformed `match_name`. -/
def badMatchConf : config :=
  { exampleConf with MatchName := "(" }

/-- The example configuration with a malformed `skip_name`. -/
def badSkipConf : config :=
  { exampleConf with SkipName := "(" }

/-- The example configuration with a subject and a text without a slot. -/
def plainConf : config :=
  { exampleConf with MsgSubject := "Daily report", MsgText := "Hello" }

/-- The example configuration with its subject template and no text. -/
def subjectOnlyConf : config :=
  { exampleConf with MsgText := "" }

/-- The example configuration without subject and text. -/
def emptyConf : config :=
  { exampleConf with MsgSubject := "", MsgText := "" }

/-! ## `fmt.Sprintf` on the modelled fragment -/

/-- Literal text before the first `%` is copied to the output. -/
theorem doPrintf_literal (w : World) (a : String) (l rest : List Char) (u : Bool)
    (h : '%' ∉ l) : doPrintf w a (l ++ rest) u = l ++ doPrintf w a rest u := by
  induction l with
  | nil => rfl
  | cons c l ih =>
    have hc : c ≠ '%' := fun e => h (by simp [e])
    have hl : '%' ∉ l := fun e => h (by simp [e])
    rw [List.cons_append, doPrintf.eq_def]
    simp [hc, ih hl]

/-- The verb `%s` writes the operand when it is still unused. -/
theorem doPrintf_verb_s (w : World) (a : String) (rest : List Char) :
    doPrintf w a ('%' :: 's' :: rest) false = a.data ++ doPrintf w a rest true := by
  rw [doPrintf.eq_def]
  simp

/-- A format without `%` is copied, followed by the EXTRA text when the operand
is unused. -/
theorem doPrintf_noPercent (w : World) (a : String) (l : List Char) (u : Bool)
    (h : '%' ∉ l) : doPrintf w a l u = l ++ (if u then [] else extraString a) := by
  have key := doPrintf_literal w a l [] u h
  have e : doPrintf w a [] u = if u then [] else extraString a := by
    rw [doPrintf.eq_def]
  rw [List.append_nil, e] at key
  exact key

/-- A format with the single slot `%s` has the operand substituted for it. -/
theorem Sprintf_slot (w : World) (pre post n : String)
    (hpre : '%' ∉ pre.data) (hpost : '%' ∉ post.data) :
    Sprintf w (pre ++ "%s" ++ post) n = pre ++ n ++ post := by
  apply String.ext
  simp only [Sprintf, String.data_append]
  rw [List.append_assoc, doPrintf_literal w n _ _ _ hpre]
  simp [doPrintf_verb_s, doPrintf_noPercent w n _ _ hpost]

/-- A format without `%` comes back with the EXTRA text appended. -/
theorem Sprintf_noSlot (w : World) (t n : String) (h : '%' ∉ t.data) :
    Sprintf w t n = t ++ "%!(EXTRA string=" ++ n ++ ")" := by
  apply String.ext
  simp [Sprintf, doPrintf_noPercent w n _ _ h, extraString]

/-- The call `strings.ContainsAny(s, "%")` says whether `%` occurs in `s`. -/
theorem ContainsAny_percent (s : String) : ContainsAny s "%" = true ↔ '%' ∈ s.data := by
  simp [ContainsAny]

/-! ## Message assembly -/

/-- The header of the message of lines 265-279, field by field. -/
theorem buildHeaders_header (conf : config) :
    (buildHeaders conf).getHeader "From"
        = some (HeaderValue.address conf.MailFrom conf.MailFromName)
    ∧ (buildHeaders conf).getHeader "To"
        = some (HeaderValue.address conf.MailTo conf.MailToName)
    ∧ (buildHeaders conf).getHeader "Cc"
        = (if conf.MailToCC = "" then none else some (HeaderValue.address conf.MailToCC ""))
    ∧ (buildHeaders conf).getHeader "Bcc"
        = (if conf.MailToBCC = "" then none else some (HeaderValue.address conf.MailToBCC ""))
    ∧ (buildHeaders conf).getHeader "Subject"
        = (if conf.MsgSubject = "" then none else some (HeaderValue.text [conf.MsgSubject])) := by
  by_cases h1 : conf.MailToCC = "" <;> by_cases h2 : conf.MailToBCC = "" <;>
    by_cases h3 : conf.MsgSubject = "" <;>
    simp [buildHeaders, NewMessage, Message.SetAddressHeader, Message.SetHeader,
      Message.SetBody, Message.setField, Message.getHeader, h1, h2, h3, List.find?,
      List.filter]

/-- The body and the attachments of the message of lines 265-279. -/
theorem buildHeaders_parts (conf : config) :
    (buildHeaders conf).parts = [("text/plain", conf.MsgText)]
    ∧ (buildHeaders conf).attachments = [] := by
  by_cases h1 : conf.MailToCC = "" <;> by_cases h2 : conf.MailToBCC = "" <;>
    by_cases h3 : conf.MsgSubject = "" <;>
    simp [buildHeaders, NewMessage, Message.SetAddressHeader, Message.SetHeader,
      Message.SetBody, Message.setField, h1, h2, h3]

/-- The attachment decision leaves the header and the body alone. -/
theorem attachFile_frame (w : World) (conf : config) (msg : Message) :
    (attachFile w conf msg).1.header = msg.header
    ∧ (attachFile w conf msg).1.parts = msg.parts := by
  simp only [attachFile]
  split_ifs <;> simp [Message.Attach]

/-- The header and the body of the message handed to the transport are those of
lines 265-279. -/
theorem assembledMessage_frame (w : World) (conf : config) (args : List String) (field : String) :
    (assembledMessage w conf args).getHeader field
        = (buildHeaders (templatedConf w conf args)).getHeader field
    ∧ (assembledMessage w conf args).parts
        = [("text/plain", (templatedConf w conf args).MsgText)] := by
  have h := attachFile_frame w (templatedConf w conf args) (buildHeaders (templatedConf w conf args))
  refine ⟨?_, ?_⟩
  · simp only [Message.getHeader, assembledMessage, h.1]
  · simp only [assembledMessage, h.2, (buildHeaders_parts _).1]

/-! ## The run as a whole -/

/-- The attachment name of line 202. -/
theorem interpolateVars_name (w : World) (conf : config) (args : List String) :
    (interpolateVars w conf args).1 = attachNameOf args := by
  cases args <;> rfl

/-- Resolving the attachment path changes no other field. -/
theorem resolvedConf_eq (w : World) (conf : config) (args : List String) :
    resolvedConf w conf args
      = { conf with AttachFile := (resolvedConf w conf args).AttachFile } := by
  cases args with
  | nil => rfl
  | cons a rest =>
    by_cases h : conf.AttachFile = ""
    · cases conf
      simp only at h
      simp [resolvedConf, interpolateVars, h]
    · simp [resolvedConf, interpolateVars, h]

/-- Templating changes the subject and the text only. -/
theorem setDefaultSubject_eq (w : World) (conf : config) (n : String) :
    setDefaultSubject w conf n
      = { conf with MsgSubject := (setDefaultSubject w conf n).MsgSubject
                    MsgText := (setDefaultSubject w conf n).MsgText } := by
  simp only [setDefaultSubject]
  split_ifs <;> rfl

/-- The name checks read the two patterns only. -/
theorem processNames_resolved (w : World) (conf : config) (args : List String) (n : String) :
    processNames w (resolvedConf w conf args) n = processNames w conf n := by
  rw [resolvedConf_eq]
  rfl

/-- The `match_name` check neither sleeps, copies nor sends. -/
theorem processMatchName_quiet (w : World) (conf : config) (n : String) :
    ∀ e ∈ (processMatchName w conf n).1, e.isSleepCopySend = false := by
  simp only [processMatchName]
  generalize (MatchString w conf.MatchName n).2 = r
  cases r <;> split_ifs <;> simp [Event.isSleepCopySend]

/-- The `skip_name` check neither sleeps, copies nor sends. -/
theorem processSkipName_quiet (w : World) (conf : config) (n : String) :
    ∀ e ∈ (processSkipName w conf n).1, e.isSleepCopySend = false := by
  simp only [processSkipName]
  generalize (MatchString w conf.SkipName n).2 = r
  cases r <;> split_ifs <;> simp [Event.isSleepCopySend]

/-- The actions of lines 198-233 include no sleep, copy or transport call. -/
theorem prelude_quiet (w : World) (conf : config) (args : List String) :
    ∀ e ∈ (interpolateVars w conf args).2.2 ++ (processNames w conf (attachNameOf args)).1,
      e.isSleepCopySend = false := by
  intro e he
  rw [List.mem_append] at he
  rcases he with he | he
  · cases args <;> simp [interpolateVars] at he <;> subst he <;> rfl
  · simp only [processNames] at he
    split_ifs at he
    · exact processMatchName_quiet w conf _ e he
    · rw [List.mem_append] at he
      rcases he with he | he
      · exact processMatchName_quiet w conf _ e he
      · exact processSkipName_quiet w conf _ e he
    · simp at he

/-- Before the name checks nothing is sent and no pattern is evaluated. -/
theorem interpolateVars_calls (w : World) (conf : config) (args : List String) :
    sendCalls (interpolateVars w conf args).2.2 = []
    ∧ matchCalls (interpolateVars w conf args).2.2 = [] := by
  cases args <;> simp [interpolateVars, sendCalls, matchCalls]

/-- The name checks send nothing. -/
theorem processNames_sendCalls (w : World) (conf : config) (n : String) :
    sendCalls (processNames w conf n).1 = [] := by
  simp only [processNames, processMatchName, processSkipName]
  generalize (MatchString w conf.MatchName n).2 = r
  generalize (MatchString w conf.SkipName n).2 = r2
  cases r <;> cases r2 <;> split_ifs <;> simp [sendCalls]

/-- The delay sends nothing and evaluates no pattern. -/
theorem delay_calls (flagSleep : Int) :
    sendCalls (delay flagSleep) = [] ∧ matchCalls (delay flagSleep) = [] := by
  simp only [delay]
  split_ifs <;> simp [sendCalls, matchCalls]

/-- The side copy sends nothing and evaluates no pattern. -/
theorem copyToPath_calls (w : World) (conf : config) :
    sendCalls (copyToPath w conf) = [] ∧ matchCalls (copyToPath w conf) = [] := by
  simp only [copyToPath]
  generalize copyFile w conf.AttachFile conf.CopyToPath = r
  cases r <;> split_ifs <;> simp [sendCalls, matchCalls]

/-- The attachment decision sends nothing and evaluates no pattern. -/
theorem attachFile_calls (w : World) (conf : config) (msg : Message) :
    sendCalls (attachFile w conf msg).2 = [] ∧ matchCalls (attachFile w conf msg).2 = [] := by
  simp only [attachFile, fileIsReadable, fileIsSmaller]
  generalize w.osOpen conf.AttachFile = r
  generalize w.osStat conf.AttachFile = r2
  cases r <;> cases r2 <;> simp only [] <;> split_ifs <;> simp [sendCalls, matchCalls]

/-- The last block of `main` makes exactly one transport call. -/
theorem send_calls (w : World) (conf : config) (server : Dialer) (msg : Message) :
    sendCalls (send w conf server msg).1 = [(server, msg)]
    ∧ matchCalls (send w conf server msg).1 = [] := by
  simp only [send]
  generalize w.dialAndSend server msg = r
  cases r <;> simp [sendCalls, matchCalls]

/-- A run stopped by a name check: exit status 0, and only the actions of lines
198-233. -/
theorem main_exit (w : World) (conf : config) (args : List String) (flagSleep : Int)
    (h : (processNames w conf (attachNameOf args)).2 = true) :
    main w conf args flagSleep
      = ⟨(interpolateVars w conf args).2.2 ++ (processNames w conf (attachNameOf args)).1, 0⟩ := by
  have e := processNames_resolved w conf args (attachNameOf args)
  simp only [resolvedConf] at e
  simp only [main, interpolateVars_name, e, h, if_true]

/-- A run that passes the name checks: one transport call, with the dialer and
the message of lines 265-300, and the exit status of the transport call. -/
theorem main_send (w : World) (conf : config) (args : List String) (flagSleep : Int)
    (h : (processNames w conf (attachNameOf args)).2 = false) :
    sendCalls (main w conf args flagSleep).trace
        = [(buildDialer (templatedConf w conf args), assembledMessage w conf args)]
    ∧ (main w conf args flagSleep).exitCode
        = (send w (templatedConf w conf args) (buildDialer (templatedConf w conf args))
            (assembledMessage w conf args)).2
    ∧ matchCalls (main w conf args flagSleep).trace
        = matchCalls (processNames w conf (attachNameOf args)).1 := by
  have e := processNames_resolved w conf args (attachNameOf args)
  simp only [resolvedConf] at e
  have hs : ∀ l1 l2 : List Event, sendCalls (l1 ++ l2) = sendCalls l1 ++ sendCalls l2 :=
    fun l1 l2 => List.filterMap_append _ _ _
  have hm : ∀ l1 l2 : List Event, matchCalls (l1 ++ l2) = matchCalls l1 ++ matchCalls l2 :=
    fun l1 l2 => List.filterMap_append _ _ _
  simp only [main, interpolateVars_name, e, h, Bool.false_eq_true, if_false]
  refine ⟨?_, rfl, ?_⟩
  · simp only [hs, (interpolateVars_calls w conf args).1, processNames_sendCalls,
      (delay_calls flagSleep).1, (copyToPath_calls w _).1, (attachFile_calls w _ _).1,
      (send_calls w _ _ _).1, List.nil_append]
    rfl
  · simp only [hm, (interpolateVars_calls w conf args).2,
      (delay_calls flagSleep).2, (copyToPath_calls w _).2, (attachFile_calls w _ _).2,
      (send_calls w _ _ _).2, List.nil_append, List.append_nil]

/-! ## The attachment gate -/

/-- The templated configuration keeps the resolved attachment path and the
configured maximum size. -/
theorem templatedConf_gate (w : World) (conf : config) (args : List String) :
    (templatedConf w conf args).AttachFile = (resolvedConf w conf args).AttachFile
    ∧ (templatedConf w conf args).MaxFileSize = conf.MaxFileSize := by
  unfold templatedConf
  rw [setDefaultSubject_eq]
  refine ⟨rfl, ?_⟩
  show (resolvedConf w conf args).MaxFileSize = conf.MaxFileSize
  rw [resolvedConf_eq]

/-- Lines 281-288 on a message without attachments: the file is attached iff it
opens and `fileIsSmaller` accepts it. -/
theorem attachFile_attachments (w : World) (conf : config) (msg : Message)
    (hmsg : msg.attachments = []) (hfile : conf.AttachFile ≠ "") :
    (attachFile w conf msg).1.attachments
      = if w.osOpen conf.AttachFile = none
            ∧ (fileIsSmaller w conf.AttachFile (int64OfUint32 conf.MaxFileSize)).1 = true
        then [conf.AttachFile] else [] := by
  simp only [attachFile, fileIsReadable]
  generalize (fileIsSmaller w conf.AttachFile (int64OfUint32 conf.MaxFileSize)) = r
  cases h : w.osOpen conf.AttachFile <;> cases hr : r.1 <;>
    simp [hfile, hmsg, Message.Attach, hr]

/-- Claim C1: for a non-empty resolved attachment path whose file has size `s`,
and the configured maximum `m` (the `uint32` widened to `int64`), the message
handed to the transport carries the file iff the file opens for reading and
(`m = 0` or `s < m`), and carries no attachment otherwise; `fileIsSmaller` is
false whenever `m > 0` and `s ≥ m`, and false when the file cannot be stat'ed. -/
theorem C1_attached_iff_readable_and_smaller (w : World) (conf : config) (args : List String)
    (s : Int) (hfile : (resolvedConf w conf args).AttachFile ≠ "")
    (hstat : w.osStat (resolvedConf w conf args).AttachFile = Except.ok s) :
    ((assembledMessage w conf args).attachments = [(resolvedConf w conf args).AttachFile]
        ↔ (w.osOpen (resolvedConf w conf args).AttachFile = none
            ∧ (int64OfUint32 conf.MaxFileSize = 0 ∨ s < int64OfUint32 conf.MaxFileSize)))
    ∧ (¬ (w.osOpen (resolvedConf w conf args).AttachFile = none
            ∧ (int64OfUint32 conf.MaxFileSize = 0 ∨ s < int64OfUint32 conf.MaxFileSize))
        → (assembledMessage w conf args).attachments = [])
    ∧ (0 < int64OfUint32 conf.MaxFileSize → int64OfUint32 conf.MaxFileSize ≤ s →
        (fileIsSmaller w (resolvedConf w conf args).AttachFile
          (int64OfUint32 conf.MaxFileSize)).1 = false)
    ∧ (∀ (file : String) (maxSize : Int) (err : String),
        w.osStat file = Except.error err → (fileIsSmaller w file maxSize).1 = false) := by
  obtain ⟨hA, hM⟩ := templatedConf_gate w conf args
  have hfile2 : (templatedConf w conf args).AttachFile ≠ "" := by rw [hA]; exact hfile
  have hsm : (fileIsSmaller w (resolvedConf w conf args).AttachFile
        (int64OfUint32 conf.MaxFileSize)).1 = true
      ↔ (int64OfUint32 conf.MaxFileSize = 0 ∨ s < int64OfUint32 conf.MaxFileSize) := by
    simp only [fileIsSmaller, hstat]
    split_ifs with hc
    · simp only [true_iff]
      tauto
    · simp only [Bool.false_eq_true, false_iff]
      tauto
  have key := attachFile_attachments w (templatedConf w conf args)
    (buildHeaders (templatedConf w conf args)) (buildHeaders_parts _).2 hfile2
  rw [hA, hM] at key
  refine ⟨?_, ?_, ?_, ?_⟩
  · unfold assembledMessage
    rw [key, ← hsm]
    split_ifs with hc
    · simp only [true_iff]
      exact hc
    · simp only [List.nil_eq, List.cons_ne_self, false_iff]
      exact hc
  · intro hn
    unfold assembledMessage
    rw [key, if_neg]
    rw [hsm]
    exact hn
  · intro hpos hle
    cases hb : (fileIsSmaller w (resolvedConf w conf args).AttachFile
        (int64OfUint32 conf.MaxFileSize)).1
    · rfl
    · rcases hsm.mp hb with h0 | hlt
      · omega
      · omega
  · intro file maxSize err herr
    simp only [fileIsSmaller, herr]

/-- Claim C1 at a file of exactly 100 bytes with a maximum of 100: readable,
yet not attached. -/
theorem C1_attached_iff_readable_and_smaller_witness :
    (resolvedConf exampleWorld exampleConf ["report.csv"]).AttachFile ≠ ""
    ∧ exampleWorld.osStat (resolvedConf exampleWorld exampleConf ["report.csv"]).AttachFile
        = Except.ok 100
    ∧ exampleWorld.osOpen (resolvedConf exampleWorld exampleConf ["report.csv"]).AttachFile = none
    ∧ (assembledMessage exampleWorld exampleConf ["report.csv"]).attachments = [] :=
  ⟨by decide, by rfl, by rfl,
    (C1_attached_iff_readable_and_smaller exampleWorld exampleConf ["report.csv"] 100
      (by decide) (by rfl)).2.1 (by decide)⟩

/-! ## The name filter -/

/-- The first result of `regexp.MatchString` is true exactly when the pattern
compiles and its matcher accepts the name. -/
theorem MatchString_true_iff (w : World) (pattern s : String) :
    (MatchString w pattern s).1 = true
      ↔ ∃ re, w.regexpCompile pattern = Except.ok re ∧ re s = true := by
  unfold MatchString
  cases h : w.regexpCompile pattern with
  | error err => simp
  | ok re => simp

/-- The `match_name` check lets the run go on iff the pattern is empty or
`regexp.MatchString` answers true. -/
theorem processMatchName_proceeds (w : World) (conf : config) (n : String) :
    (processMatchName w conf n).2 = false
      ↔ (conf.MatchName = "" ∨ (MatchString w conf.MatchName n).1 = true) := by
  unfold processMatchName
  by_cases h : conf.MatchName = ""
  · simp only [h, ne_eq, not_true_eq_false, if_false, true_or]
  · cases hm : (MatchString w conf.MatchName n).1 <;> simp [h, hm]

/-- The `skip_name` check lets the run go on iff the pattern is empty or
`regexp.MatchString` does not answer true. -/
theorem processSkipName_proceeds (w : World) (conf : config) (n : String) :
    (processSkipName w conf n).2 = false
      ↔ (conf.SkipName = "" ∨ ¬ (MatchString w conf.SkipName n).1 = true) := by
  unfold processSkipName
  by_cases h : conf.SkipName = ""
  · simp only [h, ne_eq, not_true_eq_false, if_false, true_or]
  · cases hm : (MatchString w conf.SkipName n).1 <;> simp [h, hm]

/-- The `match_name` check evaluates its pattern once, if it is non-empty. -/
theorem processMatchName_matchCalls (w : World) (conf : config) (n : String) :
    matchCalls (processMatchName w conf n).1
      = if conf.MatchName = "" then [] else [(conf.MatchName, n)] := by
  simp only [processMatchName]
  generalize (MatchString w conf.MatchName n).2 = r
  by_cases h : conf.MatchName = "" <;> cases r <;> split_ifs <;> simp_all [matchCalls]

/-- The `skip_name` check evaluates its pattern once, if it is non-empty. -/
theorem processSkipName_matchCalls (w : World) (conf : config) (n : String) :
    matchCalls (processSkipName w conf n).1
      = if conf.SkipName = "" then [] else [(conf.SkipName, n)] := by
  simp only [processSkipName]
  generalize (MatchString w conf.SkipName n).2 = r
  by_cases h : conf.SkipName = "" <;> cases r <;> split_ifs <;> simp_all [matchCalls]

/-- For a non-empty name, lines 211-233 are the `match_name` check and, when it
lets the run go on, the `skip_name` check. -/
theorem processNames_eq (w : World) (conf : config) (n : String) (hn : n ≠ "") :
    processNames w conf n
      = if (processMatchName w conf n).2 = true then processMatchName w conf n
        else ((processMatchName w conf n).1 ++ (processSkipName w conf n).1,
              (processSkipName w conf n).2) := by
  simp only [processNames, hn, ne_eq, not_false_eq_true, if_true]

/-- Claim C2: for a non-empty attachment name, the run proceeds past the
`match_name` check iff `match_name` is empty or the name matches it as a regular
expression (`regexp.MatchString` answers true); otherwise the process ends with
exit status 0, having evaluated `match_name` only, before any sleep, copy or
send. -/
theorem C2_match_name_filter (w : World) (conf : config) (n : String) (rest : List String)
    (flagSleep : Int) (hn : n ≠ "") :
    ((processMatchName w conf n).2 = false
        ↔ (conf.MatchName = "" ∨ (MatchString w conf.MatchName n).1 = true))
    ∧ ((processMatchName w conf n).2 = false →
        processNames w conf n
          = ((processMatchName w conf n).1 ++ (processSkipName w conf n).1,
             (processSkipName w conf n).2))
    ∧ (¬ (conf.MatchName = "" ∨ (MatchString w conf.MatchName n).1 = true) →
        (main w conf (n :: rest) flagSleep).exitCode = 0
        ∧ (∀ e ∈ (main w conf (n :: rest) flagSleep).trace, e.isSleepCopySend = false)
        ∧ sendCalls (main w conf (n :: rest) flagSleep).trace = []
        ∧ matchCalls (main w conf (n :: rest) flagSleep).trace = [(conf.MatchName, n)]) := by
  have hiff := processMatchName_proceeds w conf n
  refine ⟨hiff, ?_, ?_⟩
  · intro h
    rw [processNames_eq w conf n hn, h]
    rfl
  · intro hno
    have hexit : (processMatchName w conf n).2 = true := by
      cases hb : (processMatchName w conf n).2
      · exact absurd (hiff.mp hb) hno
      · rfl
    have hpn : processNames w conf n = processMatchName w conf n := by
      rw [processNames_eq w conf n hn, if_pos hexit]
    have hne : conf.MatchName ≠ "" := fun e => hno (Or.inl e)
    have hmain := main_exit w conf (n :: rest) flagSleep
      (by show (processNames w conf n).2 = true; rw [hpn]; exact hexit)
    have hq := prelude_quiet w conf (n :: rest)
    have hm : ∀ l1 l2 : List Event, matchCalls (l1 ++ l2) = matchCalls l1 ++ matchCalls l2 :=
      fun l1 l2 => List.filterMap_append _ _ _
    have hs : ∀ l1 l2 : List Event, sendCalls (l1 ++ l2) = sendCalls l1 ++ sendCalls l2 :=
      fun l1 l2 => List.filterMap_append _ _ _
    rw [hmain]
    refine ⟨rfl, hq, ?_, ?_⟩
    · show sendCalls (_ ++ (processNames w conf n).1) = []
      rw [hs, (interpolateVars_calls w conf (n :: rest)).1, processNames_sendCalls]
      rfl
    · show matchCalls (_ ++ (processNames w conf n).1) = _
      rw [hm, (interpolateVars_calls w conf (n :: rest)).2, hpn,
        processMatchName_matchCalls, if_neg hne]
      rfl

/-- Claim C2 at the name `notes.txt` and the pattern `csv$`: the run ends with
exit status 0 and nothing is sent. -/
theorem C2_match_name_filter_witness :
    ("notes.txt" : String) ≠ ""
    ∧ (main exampleWorld matchConf ["notes.txt"] 5).exitCode = 0
    ∧ sendCalls (main exampleWorld matchConf ["notes.txt"] 5).trace = [] :=
  ⟨by decide,
    ((C2_match_name_filter exampleWorld matchConf "notes.txt" [] 5
      (by decide)).2.2 (by decide)).1,
    ((C2_match_name_filter exampleWorld matchConf "notes.txt" [] 5
      (by decide)).2.2 (by decide)).2.2.1⟩

/-- Claim C3: for a non-empty attachment name that passed the `match_name`
check, the run proceeds past the `skip_name` check iff `skip_name` is empty or
the name does not match it (`regexp.MatchString` does not answer true); when
the name matches, the process ends with exit status 0 before any sleep, copy
or send; otherwise the run goes on to its one transport call.  The patterns are
evaluated in the order `match_name`, `skip_name`. -/
theorem C3_skip_name_filter (w : World) (conf : config) (n : String) (rest : List String)
    (flagSleep : Int) (hn : n ≠ "") (hmatch : (processMatchName w conf n).2 = false) :
    ((processNames w conf n).2 = false
        ↔ (conf.SkipName = "" ∨ ¬ (MatchString w conf.SkipName n).1 = true))
    ∧ ((conf.SkipName ≠ "" ∧ (MatchString w conf.SkipName n).1 = true) →
        (main w conf (n :: rest) flagSleep).exitCode = 0
        ∧ (∀ e ∈ (main w conf (n :: rest) flagSleep).trace, e.isSleepCopySend = false)
        ∧ sendCalls (main w conf (n :: rest) flagSleep).trace = [])
    ∧ ((conf.SkipName = "" ∨ ¬ (MatchString w conf.SkipName n).1 = true) →
        (sendCalls (main w conf (n :: rest) flagSleep).trace).length = 1)
    ∧ matchCalls (main w conf (n :: rest) flagSleep).trace
        = (if conf.MatchName = "" then [] else [(conf.MatchName, n)])
          ++ (if conf.SkipName = "" then [] else [(conf.SkipName, n)]) := by
  have hpn : processNames w conf n
      = ((processMatchName w conf n).1 ++ (processSkipName w conf n).1,
         (processSkipName w conf n).2) := by
    rw [processNames_eq w conf n hn, hmatch]
    rfl
  have hiff : (processNames w conf n).2 = false
      ↔ (conf.SkipName = "" ∨ ¬ (MatchString w conf.SkipName n).1 = true) := by
    rw [hpn]
    exact processSkipName_proceeds w conf n
  have hm : ∀ l1 l2 : List Event, matchCalls (l1 ++ l2) = matchCalls l1 ++ matchCalls l2 :=
    fun l1 l2 => List.filterMap_append _ _ _
  have hs : ∀ l1 l2 : List Event, sendCalls (l1 ++ l2) = sendCalls l1 ++ sendCalls l2 :=
    fun l1 l2 => List.filterMap_append _ _ _
  have hcalls : matchCalls (processNames w conf n).1
      = (if conf.MatchName = "" then [] else [(conf.MatchName, n)])
        ++ (if conf.SkipName = "" then [] else [(conf.SkipName, n)]) := by
    rw [hpn]
    show matchCalls (_ ++ _) = _
    rw [hm, processMatchName_matchCalls, processSkipName_matchCalls]
  refine ⟨hiff, ?_, ?_, ?_⟩
  · rintro ⟨hne, hyes⟩
    have hexit : (processNames w conf n).2 = true := by
      cases hb : (processNames w conf n).2
      · rcases hiff.mp hb with h | h
        · exact absurd h hne
        · exact absurd hyes h
      · rfl
    rw [main_exit w conf (n :: rest) flagSleep hexit]
    refine ⟨rfl, prelude_quiet w conf (n :: rest), ?_⟩
    show sendCalls (_ ++ (processNames w conf n).1) = []
    rw [hs, (interpolateVars_calls w conf (n :: rest)).1, processNames_sendCalls]
    rfl
  · intro hgo
    rw [(main_send w conf (n :: rest) flagSleep (hiff.mpr hgo)).1]
    rfl
  · cases hb : (processNames w conf n).2
    · rw [(main_send w conf (n :: rest) flagSleep hb).2.2]
      exact hcalls
    · rw [main_exit w conf (n :: rest) flagSleep hb]
      show matchCalls (_ ++ (processNames w conf n).1) = _
      rw [hm, (interpolateVars_calls w conf (n :: rest)).2, hcalls]
      rfl

/-- Claim C3 at the name `report.csv`, the filter `csv$` and the same pattern
as `skip_name`: both patterns are evaluated, in that order, and the run ends
with exit status 0 without a transport call. -/
theorem C3_skip_name_filter_witness :
    ("report.csv" : String) ≠ ""
    ∧ (processMatchName exampleWorld bothConf "report.csv").2 = false
    ∧ (main exampleWorld bothConf ["report.csv"] 5).exitCode = 0
    ∧ sendCalls (main exampleWorld bothConf ["report.csv"] 5).trace = []
    ∧ matchCalls (main exampleWorld bothConf ["report.csv"] 5).trace
        = [("csv$", "report.csv"), ("csv$", "report.csv")] :=
  ⟨by decide, by decide,
    ((C3_skip_name_filter exampleWorld bothConf "report.csv" [] 5
      (by decide) (by decide)).2.1 (by decide)).1,
    ((C3_skip_name_filter exampleWorld bothConf "report.csv" [] 5
      (by decide) (by decide)).2.1 (by decide)).2.2,
    (C3_skip_name_filter exampleWorld bothConf "report.csv" [] 5
      (by decide) (by decide)).2.2.2⟩

/-- A run with an empty attachment name: no pattern is evaluated, the subject
and the text stay as configured, and the one message handed to the transport
carries them. -/
theorem emptyName_run (w : World) (conf : config) (args : List String) (flagSleep : Int)
    (hname : attachNameOf args = "") :
    matchCalls (main w conf args flagSleep).trace = []
    ∧ (templatedConf w conf args).MsgSubject = conf.MsgSubject
    ∧ (templatedConf w conf args).MsgText = conf.MsgText
    ∧ sendCalls (main w conf args flagSleep).trace
        = [(buildDialer (templatedConf w conf args), assembledMessage w conf args)]
    ∧ (assembledMessage w conf args).getHeader "Subject"
        = (if conf.MsgSubject = "" then none else some (HeaderValue.text [conf.MsgSubject]))
    ∧ (assembledMessage w conf args).parts = [("text/plain", conf.MsgText)] := by
  have hpn : processNames w conf (attachNameOf args) = ([], false) := by
    simp [processNames, hname]
  have hgo : (processNames w conf (attachNameOf args)).2 = false := by rw [hpn]
  have hms := main_send w conf args flagSleep hgo
  have ht : templatedConf w conf args = resolvedConf w conf args := by
    simp [templatedConf, setDefaultSubject, hname]
  have hsubj : (templatedConf w conf args).MsgSubject = conf.MsgSubject := by
    rw [ht, resolvedConf_eq]
  have htext : (templatedConf w conf args).MsgText = conf.MsgText := by
    rw [ht, resolvedConf_eq]
  refine ⟨?_, hsubj, htext, hms.1, ?_, ?_⟩
  · rw [hms.2.2, hpn]
    rfl
  · rw [(assembledMessage_frame w conf args "Subject").1,
      (buildHeaders_header _).2.2.2.2, hsubj]
  · rw [(assembledMessage_frame w conf args "Subject").2, htext]

/-- Claim C6: when the attachment name is empty (no positional argument, or an
empty one), no pattern is evaluated, whatever `match_name` and `skip_name` are;
the subject and the text are neither templated nor defaulted; and the one
message handed to the transport has the configured subject as its Subject
header (no Subject header when it is empty) and the configured text as its
body. -/
theorem C6_no_argument (w : World) (conf : config) (args : List String) (flagSleep : Int)
    (hname : attachNameOf args = "") :
    matchCalls (main w conf args flagSleep).trace = []
    ∧ (templatedConf w conf args).MsgSubject = conf.MsgSubject
    ∧ (templatedConf w conf args).MsgText = conf.MsgText
    ∧ sendCalls (main w conf args flagSleep).trace
        = [(buildDialer (templatedConf w conf args), assembledMessage w conf args)]
    ∧ (assembledMessage w conf args).getHeader "Subject"
        = (if conf.MsgSubject = "" then none else some (HeaderValue.text [conf.MsgSubject]))
    ∧ (assembledMessage w conf args).parts = [("text/plain", conf.MsgText)] :=
  emptyName_run w conf args flagSleep hname

/-- Claim C6 at a run without arguments whose `match_name` is malformed: no
pattern is evaluated and the message goes out with the configured subject and
text, untouched. -/
theorem C6_no_argument_witness :
    attachNameOf [] = ""
    ∧ matchCalls (main exampleWorld badMatchConf [] 0).trace = []
    ∧ (assembledMessage exampleWorld badMatchConf []).getHeader "Subject"
        = some (HeaderValue.text ["New file: %s"])
    ∧ (assembledMessage exampleWorld badMatchConf []).parts = [("text/plain", "See %s")] :=
  ⟨by decide,
    (C6_no_argument exampleWorld badMatchConf [] 0 (by decide)).1,
    (C6_no_argument exampleWorld badMatchConf [] 0 (by decide)).2.2.2.2.1,
    (C6_no_argument exampleWorld badMatchConf [] 0 (by decide)).2.2.2.2.2⟩

/-! ## Templating -/

/-- A string with a character in it is not the empty string. -/
theorem ne_empty_of_mem (s : String) (c : Char) (h : c ∈ s.data) : s ≠ "" := by
  intro e
  rw [e] at h
  simp at h

/-- Lines 241-252 for a non-empty attachment name, field by field. -/
theorem setDefaultSubject_fields (w : World) (conf : config) (n : String) (hn : n ≠ "") :
    (setDefaultSubject w conf n).MsgSubject
        = (if ContainsAny (defaultedSubject conf) "%" = true
            then Sprintf w (defaultedSubject conf) n else defaultedSubject conf)
    ∧ (setDefaultSubject w conf n).MsgText
        = (if conf.MsgText = "" then "" else Sprintf w conf.MsgText n) := by
  unfold defaultedSubject
  have hc : ContainsAny "Attachment: %s" "%" = true := by decide
  by_cases h1 : conf.MsgSubject = ""
  · by_cases h3 : conf.MsgText = ""
    · simp [setDefaultSubject, hn, h1, h3, hc]
    · simp [setDefaultSubject, hn, h1, h3, hc]
  · by_cases h2 : ContainsAny conf.MsgSubject "%" = true
    · by_cases h3 : conf.MsgText = ""
      · simp [setDefaultSubject, hn, h1, h2, h3]
      · simp [setDefaultSubject, hn, h1, h2, h3]
    · by_cases h3 : conf.MsgText = ""
      · simp [setDefaultSubject, hn, h1, h2, h3]
      · simp [setDefaultSubject, hn, h1, h2, h3]

/-- Lines 241-248 for a non-empty attachment name and a subject with the single
slot `%s`, whatever the text is. -/
theorem setDefaultSubject_subject_slot (w : World) (conf : config) (n : String)
    (pre post : String) (hn : n ≠ "") (hsubj : conf.MsgSubject = pre ++ "%s" ++ post)
    (hpre : '%' ∉ pre.data) (hpost : '%' ∉ post.data) :
    (setDefaultSubject w conf n).MsgSubject = pre ++ n ++ post := by
  have hs1 : '%' ∈ conf.MsgSubject.data := by rw [hsubj]; simp
  have hs2 : conf.MsgSubject ≠ "" := ne_empty_of_mem _ _ hs1
  have hc : ContainsAny conf.MsgSubject "%" = true := (ContainsAny_percent _).mpr hs1
  have hS := (setDefaultSubject_fields w conf n hn).1
  have hd : defaultedSubject conf = conf.MsgSubject := if_neg hs2
  rw [hd, if_pos hc] at hS
  rw [hS, hsubj]
  exact Sprintf_slot w pre post n hpre hpost

/-- Lines 249-251 for a non-empty attachment name and a text with the single
slot `%s`, whatever the subject is. -/
theorem setDefaultSubject_text_slot (w : World) (conf : config) (n : String)
    (bpre bpost : String) (hn : n ≠ "") (htext : conf.MsgText = bpre ++ "%s" ++ bpost)
    (hbpre : '%' ∉ bpre.data) (hbpost : '%' ∉ bpost.data) :
    (setDefaultSubject w conf n).MsgText = bpre ++ n ++ bpost := by
  have ht1 : '%' ∈ conf.MsgText.data := by rw [htext]; simp
  have ht2 : conf.MsgText ≠ "" := ne_empty_of_mem _ _ ht1
  have hT := (setDefaultSubject_fields w conf n hn).2
  rw [if_neg ht2] at hT
  rw [hT, htext]
  exact Sprintf_slot w bpre bpost n hbpre hbpost

/-- Claim C5: for a non-empty attachment name `n`: if the subject template is
`pre ++ "%s" ++ post` with no `%` in `pre` and `post`, the subject after
templating is `pre ++ n ++ post`, and it is the Subject header of the message
handed to the transport, whatever the body template is; and if the body
template is `bpre ++ "%s" ++ bpost` with no `%` in `bpre` and `bpost`, the body
after templating is `bpre ++ n ++ bpost`, and it is the text/plain body of that
message, whatever the subject template is. -/
theorem C5_single_slot_templates (w : World) (conf : config) (n : String) (rest : List String)
    (hn : n ≠ "") :
    (∀ pre post : String, conf.MsgSubject = pre ++ "%s" ++ post →
        '%' ∉ pre.data → '%' ∉ post.data →
        (templatedConf w conf (n :: rest)).MsgSubject = pre ++ n ++ post
        ∧ (assembledMessage w conf (n :: rest)).getHeader "Subject"
            = some (HeaderValue.text [pre ++ n ++ post]))
    ∧ (∀ bpre bpost : String, conf.MsgText = bpre ++ "%s" ++ bpost →
        '%' ∉ bpre.data → '%' ∉ bpost.data →
        (templatedConf w conf (n :: rest)).MsgText = bpre ++ n ++ bpost
        ∧ (assembledMessage w conf (n :: rest)).parts
            = [("text/plain", bpre ++ n ++ bpost)]) := by
  refine ⟨?_, ?_⟩
  · intro pre post hsubj hpre hpost
    have hrs : (resolvedConf w conf (n :: rest)).MsgSubject = pre ++ "%s" ++ post := by
      rw [resolvedConf_eq]; exact hsubj
    have hS : (templatedConf w conf (n :: rest)).MsgSubject = pre ++ n ++ post :=
      setDefaultSubject_subject_slot w (resolvedConf w conf (n :: rest)) n pre post
        hn hrs hpre hpost
    have hne : pre ++ n ++ post ≠ "" := by
      intro e
      have hd := congrArg String.data e
      simp only [String.data_append] at hd
      have hnd : n.data = [] := by
        have hl := congrArg List.length hd
        simp only [List.length_append, List.length_nil] at hl
        have h0 : n.data.length = 0 := by
          omega
        exact List.length_eq_zero.mp h0
      exact hn (String.ext hnd)
    refine ⟨hS, ?_⟩
    rw [(assembledMessage_frame w conf (n :: rest) "Subject").1,
      (buildHeaders_header _).2.2.2.2, hS, if_neg hne]
  · intro bpre bpost htext hbpre hbpost
    have hrt : (resolvedConf w conf (n :: rest)).MsgText = bpre ++ "%s" ++ bpost := by
      rw [resolvedConf_eq]; exact htext
    have hT : (templatedConf w conf (n :: rest)).MsgText = bpre ++ n ++ bpost :=
      setDefaultSubject_text_slot w (resolvedConf w conf (n :: rest)) n bpre bpost
        hn hrt hbpre hbpost
    refine ⟨hT, ?_⟩
    rw [(assembledMessage_frame w conf (n :: rest) "Subject").2, hT]

/-- Claim C5 at the name `report.csv`: the subject template `New file: %s` with
the body template `See %s`, and the same subject template with an empty body. -/
theorem C5_single_slot_templates_witness :
    ("report.csv" : String) ≠ ""
    ∧ exampleConf.MsgSubject = "New file: " ++ "%s" ++ ""
    ∧ exampleConf.MsgText = "See " ++ "%s" ++ ""
    ∧ (templatedConf exampleWorld exampleConf ["report.csv"]).MsgSubject = "New file: report.csv"
    ∧ (assembledMessage exampleWorld exampleConf ["report.csv"]).getHeader "Subject"
        = some (HeaderValue.text ["New file: report.csv"])
    ∧ (templatedConf exampleWorld exampleConf ["report.csv"]).MsgText = "See report.csv"
    ∧ (assembledMessage exampleWorld exampleConf ["report.csv"]).parts
        = [("text/plain", "See report.csv")]
    ∧ subjectOnlyConf.MsgText = ""
    ∧ (assembledMessage exampleWorld subjectOnlyConf ["report.csv"]).getHeader "Subject"
        = some (HeaderValue.text ["New file: report.csv"]) :=
  ⟨by decide, by decide, by decide,
    ((C5_single_slot_templates exampleWorld exampleConf "report.csv" [] (by decide)).1
      "New file: " "" (by decide) (by decide) (by decide)).1,
    ((C5_single_slot_templates exampleWorld exampleConf "report.csv" [] (by decide)).1
      "New file: " "" (by decide) (by decide) (by decide)).2,
    ((C5_single_slot_templates exampleWorld exampleConf "report.csv" [] (by decide)).2
      "See " "" (by decide) (by decide) (by decide)).1,
    ((C5_single_slot_templates exampleWorld exampleConf "report.csv" [] (by decide)).2
      "See " "" (by decide) (by decide) (by decide)).2,
    by decide,
    ((C5_single_slot_templates exampleWorld subjectOnlyConf "report.csv" [] (by decide)).1
      "New file: " "" (by decide) (by decide) (by decide)).2⟩

/-- Lines 241-252 for a non-empty attachment name and templates without `%`:
the subject is unchanged, the text gets the EXTRA tail of `fmt`. -/
theorem setDefaultSubject_noSlot (w : World) (conf : config) (n : String) (hn : n ≠ "")
    (hsubj : conf.MsgSubject ≠ "") (htext : conf.MsgText ≠ "")
    (hs : '%' ∉ conf.MsgSubject.data) (ht : '%' ∉ conf.MsgText.data) :
    (setDefaultSubject w conf n).MsgSubject = conf.MsgSubject
    ∧ (setDefaultSubject w conf n).MsgText
        = conf.MsgText ++ "%!(EXTRA string=" ++ n ++ ")" := by
  have hc : ¬ ContainsAny conf.MsgSubject "%" = true := fun h => hs ((ContainsAny_percent _).mp h)
  obtain ⟨hS, hT⟩ := setDefaultSubject_fields w conf n hn
  have hd : defaultedSubject conf = conf.MsgSubject := if_neg hsubj
  rw [hd, if_neg hc] at hS
  rw [if_neg htext] at hT
  rw [hS, hT]
  exact ⟨rfl, Sprintf_noSlot w _ n ht⟩

/-- Claim C9, the code at the name `report.csv` with the body template `Hello`
and the subject template `Daily report`, neither with a slot: the subject is
passed through unchanged, but the body handed to the transport is
`Hello%!(EXTRA string=report.csv)`, not the template. -/
theorem C9_body_without_slot_is_altered :
    (templatedConf exampleWorld plainConf ["report.csv"]).MsgSubject = "Daily report"
    ∧ (templatedConf exampleWorld plainConf ["report.csv"]).MsgText
        = "Hello%!(EXTRA string=report.csv)"
    ∧ (assembledMessage exampleWorld plainConf ["report.csv"]).parts
        = [("text/plain", "Hello%!(EXTRA string=report.csv)")]
    ∧ (assembledMessage exampleWorld plainConf ["report.csv"]).parts
        ≠ [("text/plain", plainConf.MsgText)] := by
  decide

/-- Claim C10: for a non-empty attachment name `n` and an empty configured
subject, the subject is defaulted to `Attachment: %s` and interpolated: the
Subject header of the message is set and is `Attachment: n`, and a run that
passes the name filter hands this message to the transport.  With an empty
attachment name and an empty configured subject the message has no Subject
header and the subject stays empty.  For every configuration, whatever its
subject and whatever the attachment name, an empty configured body stays empty:
the message handed to the transport has the empty text/plain body. -/
theorem C10_default_subject (w : World) (conf : config) (args : List String) (flagSleep : Int) :
    (conf.MsgSubject = "" → attachNameOf args ≠ "" →
        (templatedConf w conf args).MsgSubject = "Attachment: " ++ attachNameOf args
        ∧ (assembledMessage w conf args).getHeader "Subject"
            = some (HeaderValue.text ["Attachment: " ++ attachNameOf args])
        ∧ ((processNames w conf (attachNameOf args)).2 = false →
            sendCalls (main w conf args flagSleep).trace
              = [(buildDialer (templatedConf w conf args), assembledMessage w conf args)]))
    ∧ (conf.MsgSubject = "" → attachNameOf args = "" →
        (templatedConf w conf args).MsgSubject = ""
        ∧ (assembledMessage w conf args).getHeader "Subject" = none
        ∧ sendCalls (main w conf args flagSleep).trace
            = [(buildDialer (templatedConf w conf args), assembledMessage w conf args)])
    ∧ (conf.MsgText = "" →
        (templatedConf w conf args).MsgText = ""
        ∧ (assembledMessage w conf args).parts = [("text/plain", "")]) := by
  refine ⟨?_, ?_, ?_⟩
  · intro hsubj hn
    have hrs : (resolvedConf w conf args).MsgSubject = "" := by
      rw [resolvedConf_eq]; exact hsubj
    have hc : ContainsAny "Attachment: %s" "%" = true := by decide
    have hS : (templatedConf w conf args).MsgSubject = "Attachment: " ++ attachNameOf args := by
      have hsl := Sprintf_slot w "Attachment: " "" (attachNameOf args) (by decide) (by decide)
      have e1 : ("Attachment: " : String) ++ "%s" ++ "" = "Attachment: %s" := by decide
      have e2 : "Attachment: " ++ attachNameOf args ++ "" = "Attachment: " ++ attachNameOf args :=
        String.append_empty _
      rw [e1, e2] at hsl
      have hd : defaultedSubject (resolvedConf w conf args) = "Attachment: %s" := if_pos hrs
      unfold templatedConf
      rw [(setDefaultSubject_fields w _ _ hn).1, hd, if_pos hc]
      exact hsl
    have hne : "Attachment: " ++ attachNameOf args ≠ "" :=
      ne_empty_of_mem _ 'A' (by rw [String.data_append]; simp)
    refine ⟨hS, ?_, fun hgo => (main_send w conf args flagSleep hgo).1⟩
    rw [(assembledMessage_frame w conf args "Subject").1,
      (buildHeaders_header _).2.2.2.2, hS, if_neg hne]
  · intro hsubj hname
    have h6 := emptyName_run w conf args flagSleep hname
    refine ⟨by rw [h6.2.1, hsubj], ?_, h6.2.2.2.1⟩
    rw [h6.2.2.2.2.1, if_pos hsubj]
  · intro htext
    have hrt : (resolvedConf w conf args).MsgText = "" := by
      rw [resolvedConf_eq]; exact htext
    have hT : (templatedConf w conf args).MsgText = "" := by
      unfold templatedConf
      by_cases hn : attachNameOf args = ""
      · simp only [setDefaultSubject, hn, ne_eq, not_true_eq_false, if_false]
        exact hrt
      · rw [(setDefaultSubject_fields w _ _ hn).2, if_pos hrt]
    refine ⟨hT, ?_⟩
    rw [(assembledMessage_frame w conf args "Subject").2, hT]

/-- Claim C10 at the name `report.csv` with neither subject nor body
configured, at a run without arguments, and at a configured subject with an
empty body. -/
theorem C10_default_subject_witness :
    emptyConf.MsgSubject = ""
    ∧ emptyConf.MsgText = ""
    ∧ (assembledMessage exampleWorld emptyConf ["report.csv"]).getHeader "Subject"
        = some (HeaderValue.text ["Attachment: report.csv"])
    ∧ (assembledMessage exampleWorld emptyConf []).getHeader "Subject" = none
    ∧ (assembledMessage exampleWorld emptyConf ["report.csv"]).parts = [("text/plain", "")]
    ∧ subjectOnlyConf.MsgSubject ≠ ""
    ∧ subjectOnlyConf.MsgText = ""
    ∧ (assembledMessage exampleWorld subjectOnlyConf ["report.csv"]).parts
        = [("text/plain", "")] :=
  ⟨by decide, by decide,
    ((C10_default_subject exampleWorld emptyConf ["report.csv"] 0).1
      (by decide) (by decide)).2.1,
    ((C10_default_subject exampleWorld emptyConf [] 0).2.1 (by decide) (by decide)).2.1,
    ((C10_default_subject exampleWorld emptyConf ["report.csv"] 0).2.2 (by decide)).2,
    by decide, by decide,
    ((C10_default_subject exampleWorld subjectOnlyConf ["report.csv"] 0).2.2 (by decide)).2⟩

/-- Templating and path resolution leave the addresses alone. -/
theorem templatedConf_addresses (w : World) (conf : config) (args : List String) :
    (templatedConf w conf args).MailFrom = conf.MailFrom
    ∧ (templatedConf w conf args).MailFromName = conf.MailFromName
    ∧ (templatedConf w conf args).MailTo = conf.MailTo
    ∧ (templatedConf w conf args).MailToName = conf.MailToName
    ∧ (templatedConf w conf args).MailToCC = conf.MailToCC
    ∧ (templatedConf w conf args).MailToBCC = conf.MailToBCC := by
  unfold templatedConf
  rw [setDefaultSubject_eq]
  simp only []
  rw [resolvedConf_eq]
  exact ⟨rfl, rfl, rfl, rfl, rfl, rfl⟩

/-- Claim C8: a run that passes the name checks hands exactly one message to
the transport.  It has the From and To headers (address and display name) and
one text/plain body, the templated text (possibly empty); it has a Cc header
iff `mail_to_cc` is non-empty, a Bcc header iff `mail_to_bcc` is non-empty, and
a Subject header iff the subject after templating is non-empty. -/
theorem C8_message_assembly (w : World) (conf : config) (args : List String) (flagSleep : Int)
    (hgo : (processNames w conf (attachNameOf args)).2 = false) :
    sendCalls (main w conf args flagSleep).trace
        = [(buildDialer (templatedConf w conf args), assembledMessage w conf args)]
    ∧ (assembledMessage w conf args).getHeader "From"
        = some (HeaderValue.address conf.MailFrom conf.MailFromName)
    ∧ (assembledMessage w conf args).getHeader "To"
        = some (HeaderValue.address conf.MailTo conf.MailToName)
    ∧ (assembledMessage w conf args).parts
        = [("text/plain", (templatedConf w conf args).MsgText)]
    ∧ (assembledMessage w conf args).getHeader "Cc"
        = (if conf.MailToCC = "" then none else some (HeaderValue.address conf.MailToCC ""))
    ∧ (assembledMessage w conf args).getHeader "Bcc"
        = (if conf.MailToBCC = "" then none else some (HeaderValue.address conf.MailToBCC ""))
    ∧ (assembledMessage w conf args).getHeader "Subject"
        = (if (templatedConf w conf args).MsgSubject = "" then none
           else some (HeaderValue.text [(templatedConf w conf args).MsgSubject])) := by
  obtain ⟨a1, a2, a3, a4, a5, a6⟩ := templatedConf_addresses w conf args
  obtain ⟨b1, b2, b3, b4, b5⟩ := buildHeaders_header (templatedConf w conf args)
  rw [a1, a2] at b1
  rw [a3, a4] at b2
  rw [a5] at b3
  rw [a6] at b4
  refine ⟨(main_send w conf args flagSleep hgo).1, ?_, ?_,
    (assembledMessage_frame w conf args "From").2, ?_, ?_, ?_⟩
  · rw [(assembledMessage_frame w conf args "From").1, b1]
  · rw [(assembledMessage_frame w conf args "To").1, b2]
  · rw [(assembledMessage_frame w conf args "Cc").1, b3]
  · rw [(assembledMessage_frame w conf args "Bcc").1, b4]
  · rw [(assembledMessage_frame w conf args "Subject").1, b5]

/-- Claim C8 at the example configuration (no Cc, a Bcc address) and the name
`report.csv`. -/
theorem C8_message_assembly_witness :
    (processNames exampleWorld exampleConf (attachNameOf ["report.csv"])).2 = false
    ∧ (assembledMessage exampleWorld exampleConf ["report.csv"]).getHeader "From"
        = some (HeaderValue.address "pechkin@example.org" "Pechkin")
    ∧ (assembledMessage exampleWorld exampleConf ["report.csv"]).getHeader "Cc" = none
    ∧ (assembledMessage exampleWorld exampleConf ["report.csv"]).getHeader "Bcc"
        = some (HeaderValue.address "matroskin@example.org" "")
    ∧ (assembledMessage exampleWorld exampleConf ["report.csv"]).getHeader "Subject"
        = some (HeaderValue.text ["New file: report.csv"]) :=
  ⟨by decide,
    (C8_message_assembly exampleWorld exampleConf ["report.csv"] 0 (by decide)).2.1,
    (C8_message_assembly exampleWorld exampleConf ["report.csv"] 0 (by decide)).2.2.2.2.1,
    (C8_message_assembly exampleWorld exampleConf ["report.csv"] 0 (by decide)).2.2.2.2.2.1,
    (C8_message_assembly exampleWorld exampleConf ["report.csv"] 0 (by decide)).2.2.2.2.2.2⟩

/-! ## The side copy -/

/-- The formatter reads the world through `fmtDirective` only. -/
theorem doPrintf_congr (w1 w2 : World) (h : w1.fmtDirective = w2.fmtDirective) (a : String) :
    ∀ (k : Nat) (l : List Char), l.length ≤ k → ∀ u, doPrintf w1 a l u = doPrintf w2 a l u := by
  intro k
  induction k with
  | zero =>
    intro l hl u
    have : l = [] := List.length_eq_zero.mp (Nat.le_zero.mp hl)
    subst this
    rw [doPrintf.eq_def, doPrintf.eq_def w2]
  | succ k ih =>
    intro l hl u
    cases l with
    | nil => rw [doPrintf.eq_def, doPrintf.eq_def w2]
    | cons c l =>
      have hl1 : l.length ≤ k := by simpa using hl
      rw [doPrintf.eq_def, doPrintf.eq_def w2]
      simp only []
      cases l with
      | nil => simp only [ih [] hl1]
      | cons v l =>
        have hl2 : l.length ≤ k := by
          simp only [List.length_cons] at hl1
          omega
        simp only [ih (v :: l) hl1, ih l hl2, h]

/-- The formatter agrees in two worlds with the same `fmtDirective`. -/
theorem Sprintf_congr (w1 w2 : World) (h : w1.fmtDirective = w2.fmtDirective)
    (format a : String) : Sprintf w1 format a = Sprintf w2 format a := by
  unfold Sprintf
  rw [doPrintf_congr w1 w2 h a format.data.length format.data (le_refl _) false]

/-- Lines 198-209 agree in two worlds with the same formatter. -/
theorem interpolateVars_congr (w1 w2 : World) (hf : w1.fmtDirective = w2.fmtDirective)
    (conf : config) (args : List String) :
    interpolateVars w1 conf args = interpolateVars w2 conf args := by
  cases args with
  | nil => rfl
  | cons a rest => simp only [interpolateVars, Sprintf_congr w1 w2 hf]

/-- The name checks agree in two worlds with the same regular expressions. -/
theorem processNames_congr (w1 w2 : World) (hr : w1.regexpCompile = w2.regexpCompile)
    (conf : config) (n : String) : processNames w1 conf n = processNames w2 conf n := by
  simp only [processNames, processMatchName, processSkipName, MatchString, hr]

/-- Templating agrees in two worlds with the same formatter. -/
theorem setDefaultSubject_congr (w1 w2 : World) (hf : w1.fmtDirective = w2.fmtDirective)
    (conf : config) (n : String) : setDefaultSubject w1 conf n = setDefaultSubject w2 conf n := by
  simp only [setDefaultSubject, Sprintf_congr w1 w2 hf]

/-- The attachment decision agrees in two worlds with the same `os.Open` and
`os.Stat`. -/
theorem attachFile_congr (w1 w2 : World) (ho : w1.osOpen = w2.osOpen)
    (hs : w1.osStat = w2.osStat) (conf : config) (msg : Message) :
    attachFile w1 conf msg = attachFile w2 conf msg := by
  simp only [attachFile, fileIsReadable, fileIsSmaller, ho, hs]

/-- Claim C7: two runs on the same configuration and arguments, in worlds that
agree on everything but the operations of the side copy (creating the
destination file, copying the bytes, joining the path), end with the same exit
status and make the same transport calls, with the same dialer and the same
message (headers, subject, body, attachment).  In either world a run that
passes the name checks makes its one transport call, and its exit status is
decided by the transport alone, whatever `copyFile` returned. -/
theorem C7_copy_outcome_irrelevant (w1 w2 : World) (conf : config) (args : List String)
    (flagSleep : Int) (hr : w1.regexpCompile = w2.regexpCompile)
    (hf : w1.fmtDirective = w2.fmtDirective) (ho : w1.osOpen = w2.osOpen)
    (hs : w1.osStat = w2.osStat) (hd : w1.dialAndSend = w2.dialAndSend) :
    (main w1 conf args flagSleep).exitCode = (main w2 conf args flagSleep).exitCode
    ∧ sendCalls (main w1 conf args flagSleep).trace = sendCalls (main w2 conf args flagSleep).trace
    ∧ ((processNames w1 conf (attachNameOf args)).2 = false →
        sendCalls (main w1 conf args flagSleep).trace
          = [(buildDialer (templatedConf w1 conf args), assembledMessage w1 conf args)]
        ∧ (main w1 conf args flagSleep).exitCode
          = (if w1.dialAndSend (buildDialer (templatedConf w1 conf args))
                (assembledMessage w1 conf args) = none then 0 else 1)) := by
  have hpn := processNames_congr w1 w2 hr conf (attachNameOf args)
  have hT : templatedConf w1 conf args = templatedConf w2 conf args := by
    simp only [templatedConf, resolvedConf, interpolateVars_congr w1 w2 hf,
      setDefaultSubject_congr w1 w2 hf]
  have hM : assembledMessage w1 conf args = assembledMessage w2 conf args := by
    simp only [assembledMessage, hT, attachFile_congr w1 w2 ho hs]
  have hsend : ∀ (c : config) (server : Dialer) (msg : Message),
      (send w1 c server msg).2 = (if w1.dialAndSend server msg = none then 0 else 1) := by
    intro c server msg
    unfold send
    cases w1.dialAndSend server msg <;> rfl
  have hsend2 : ∀ (c : config) (server : Dialer) (msg : Message),
      (send w2 c server msg).2 = (if w1.dialAndSend server msg = none then 0 else 1) := by
    intro c server msg
    unfold send
    rw [hd]
    cases w2.dialAndSend server msg <;> rfl
  cases hb : (processNames w1 conf (attachNameOf args)).2 with
  | true =>
    have hb2 : (processNames w2 conf (attachNameOf args)).2 = true := by rw [← hpn]; exact hb
    rw [main_exit w1 conf args flagSleep hb, main_exit w2 conf args flagSleep hb2]
    have hs : ∀ l1 l2 : List Event, sendCalls (l1 ++ l2) = sendCalls l1 ++ sendCalls l2 :=
      fun l1 l2 => List.filterMap_append _ _ _
    refine ⟨rfl, ?_, fun h => absurd h (by simp)⟩
    show sendCalls (_ ++ _) = sendCalls (_ ++ _)
    rw [hs, hs, (interpolateVars_calls w1 conf args).1, (interpolateVars_calls w2 conf args).1,
      processNames_sendCalls, processNames_sendCalls]
  | false =>
    have hb2 : (processNames w2 conf (attachNameOf args)).2 = false := by rw [← hpn]; exact hb
    obtain ⟨s1, e1, _⟩ := main_send w1 conf args flagSleep hb
    obtain ⟨s2, e2, _⟩ := main_send w2 conf args flagSleep hb2
    rw [hsend] at e1
    rw [hsend2, ← hT, ← hM] at e2
    rw [← hT, ← hM] at s2
    exact ⟨by rw [e1, e2], by rw [s1, s2], fun _ => ⟨s1, e1⟩⟩

/-- Claim C7 at the name `report.csv`, in a world where creating the copy fails
and in one where the copy succeeds. -/
theorem C7_copy_outcome_irrelevant_witness :
    copyFile exampleWorld "/data/report.csv" "/backup" = some "permission denied"
    ∧ copyFile exampleWorldCopyOk "/data/report.csv" "/backup" = none
    ∧ (main exampleWorld exampleConf ["report.csv"] 0).exitCode
        = (main exampleWorldCopyOk exampleConf ["report.csv"] 0).exitCode
    ∧ sendCalls (main exampleWorld exampleConf ["report.csv"] 0).trace
        = sendCalls (main exampleWorldCopyOk exampleConf ["report.csv"] 0).trace :=
  ⟨by decide, by decide,
    (C7_copy_outcome_irrelevant exampleWorld exampleWorldCopyOk exampleConf ["report.csv"] 0
      rfl rfl rfl rfl rfl).1,
    (C7_copy_outcome_irrelevant exampleWorld exampleWorldCopyOk exampleConf ["report.csv"] 0
      rfl rfl rfl rfl rfl).2.1⟩

/-! ## Malformed patterns -/

/-- Claim C4, the code at the malformed pattern `(` and the name `report.csv`:
`regexp.MatchString` returns an error; as `match_name` the pattern ends the run
with exit status 0, and as `skip_name` it lets the run go on to its transport
call and exit status 0.  Neither run is fatal. -/
theorem C4_malformed_pattern_is_not_fatal :
    MatchString exampleWorld "(" "report.csv" = (false, some "missing closing )")
    ∧ (main exampleWorld badMatchConf ["report.csv"] 0).exitCode = 0
    ∧ (main exampleWorld badSkipConf ["report.csv"] 0).exitCode = 0
    ∧ (sendCalls (main exampleWorld badSkipConf ["report.csv"] 0).trace).length = 1
    ∧ Event.log Level.FATAL "error in regexp skip_name %s" [LogArg.str "missing closing )"]
        ∈ (main exampleWorld badSkipConf ["report.csv"] 0).trace := by
  decide

end Pechkin
